import Mathlib

/-
Verification development for the base-service-class repository
(src/index.ts, abstract class BaseService).

The service mediates CRUD access to one relational table.  Rows and
payloads are JavaScript objects, modelled here as association lists from
column names to scalar values.  The external collaborators from the
database-helpers and node-utilities packages are out of scope for the
repository (spec section 1); the object utilities (Object.assign spread
semantics, shallow key-subset extraction, shallow equality) are modelled
by their documented JavaScript semantics, and the database collaborators
(checkPrimaryKey, createRow, findByPrimaryKey, updateRow, deleteRow) are
modelled by their outcomes, passed in as parameters, plus an event trace
recording every collaborator and hook invocation the service performs.
-/

namespace BaseService

/-- Scalar value stored in a column of a row or payload: a string, a
number, or a timestamp (Date). -/
inductive Value where
  | str : String → Value
  | num : Int → Value
  | date : Nat → Value
deriving DecidableEq, Repr

/-- A JavaScript object: an insertion-ordered association list from
property names to values. -/
abbrev Obj := List (String × Value)

/-- Property access o[k]: the value at the first entry with key k. -/
def objLookup : Obj → String → Option Value
  | [], _ => none
  | p :: tl, k => if p.1 = k then some p.2 else objLookup tl k

/-- Object.keys: the list of property names in insertion order. -/
def objKeys (o : Obj) : List String :=
  o.map Prod.fst

/-- Left-biased choice on optional values, used to state lookup results
of merged objects. -/
def orO (a b : Option Value) : Option Value :=
  match a with
  | some v => some v
  | none => b

/-- Object.assign({}, a, b) and the spread expression { ...a, ...b }:
entries of a, updated in place by b where keys collide, followed by the
entries of b whose keys are new. -/
def objectAssign (a b : Obj) : Obj :=
  a.map (fun p => (p.1, (objLookup b p.1).getD p.2)) ++
    b.filter (fun p => (objLookup a p.1).isNone)

/-- Model of the external node-utilities pickObjectKeys collaborator
(shallow key-subset extraction, spec sections 1 and 4): the entries of o
whose keys occur in the given key list, in key-list order. -/
def pickObjectKeys (o : Obj) (keys : List String) : Obj :=
  keys.filterMap (fun k => Option.map (fun v => (k, v)) (objLookup o k))

/-- Model of the external node-utilities areObjectsEqual collaborator
(shallow equality, spec sections 1 and 4): the two objects hold equal
values at every key of either object. -/
def areObjectsEqual (a b : Obj) : Bool :=
  (objKeys a).all (fun k => objLookup a k == objLookup b k) &&
    (objKeys b).all (fun k => objLookup a k == objLookup b k)

theorem objLookup_append (a b : Obj) (k : String) :
    objLookup (a ++ b) k = orO (objLookup a k) (objLookup b k) := by
  induction a with
  | nil => rfl
  | cons p tl ih =>
    by_cases h : p.1 = k <;> simp [objLookup, h, ih, orO]

theorem objLookup_mapOverride (a b : Obj) (k : String) :
    objLookup (a.map (fun p => (p.1, (objLookup b p.1).getD p.2))) k =
      Option.map (fun v => (objLookup b k).getD v) (objLookup a k) := by
  induction a with
  | nil => rfl
  | cons p tl ih =>
    by_cases h : p.1 = k <;> simp [objLookup, h, ih]

theorem objLookup_filterIsNone (a b : Obj) (k : String) :
    objLookup (b.filter fun p => (objLookup a p.1).isNone) k =
      if (objLookup a k).isNone then objLookup b k else none := by
  induction b with
  | nil => simp [objLookup]
  | cons q tl ih =>
    cases haq : objLookup a q.1 with
    | none =>
      by_cases hk : q.1 = k
      · subst hk
        simp [List.filter_cons, haq, objLookup]
      · simp [List.filter_cons, haq, objLookup, hk, ih]
    | some v =>
      by_cases hk : q.1 = k
      · subst hk
        simp [List.filter_cons, haq, objLookup, ih]
      · simp [List.filter_cons, haq, objLookup, hk, ih]

theorem objLookup_objectAssign (a b : Obj) (k : String) :
    objLookup (objectAssign a b) k = orO (objLookup b k) (objLookup a k) := by
  unfold objectAssign
  rw [objLookup_append, objLookup_mapOverride, objLookup_filterIsNone]
  cases ha : objLookup a k <;> cases hb : objLookup b k <;> simp [orO]

theorem objectAssign_nil (b : Obj) : objectAssign [] b = b := by
  unfold objectAssign
  simp only [List.map_nil, List.nil_append]
  induction b with
  | nil => rfl
  | cons p tl ih =>
    simp [List.filter_cons, objLookup, ih]

theorem objLookup_pickObjectKeys (o : Obj) (keys : List String) (k : String) :
    objLookup (pickObjectKeys o keys) k =
      if k ∈ keys then objLookup o k else none := by
  induction keys with
  | nil => simp [pickObjectKeys, objLookup]
  | cons k0 tl ih =>
    simp only [pickObjectKeys] at ih
    by_cases h : k0 = k
    · subst h
      cases ho : objLookup o k0 with
      | none =>
        simp [pickObjectKeys, List.filterMap_cons, ho, ih]
      | some v =>
        simp [pickObjectKeys, List.filterMap_cons, ho, objLookup]
    · have h2 : ¬ k = k0 := fun hh => h hh.symm
      cases ho : objLookup o k0 with
      | none =>
        simp [pickObjectKeys, List.filterMap_cons, ho, ih, List.mem_cons, h2]
      | some v =>
        simp [pickObjectKeys, List.filterMap_cons, ho, objLookup, h, h2, ih, List.mem_cons]

theorem filterMapCongrOn (l : List String) (f g : String → Option (String × Value))
    (h : ∀ k ∈ l, f k = g k) : l.filterMap f = l.filterMap g := by
  induction l with
  | nil => rfl
  | cons a tl ih =>
    rw [List.filterMap_cons, List.filterMap_cons, h a (List.mem_cons_self a tl),
      ih (fun k hk => h k (List.mem_cons_of_mem a hk))]

theorem pickObjectKeys_pickObjectKeys (o : Obj) (keys : List String) :
    pickObjectKeys (pickObjectKeys o keys) keys = pickObjectKeys o keys := by
  apply filterMapCongrOn
  intro k hk
  rw [objLookup_pickObjectKeys, if_pos hk]

theorem pickObjectKeys_objectAssign_restrict (r u : Obj) (keys : List String) :
    pickObjectKeys (objectAssign r (pickObjectKeys u keys)) keys =
      pickObjectKeys (objectAssign r u) keys := by
  apply filterMapCongrOn
  intro k hk
  rw [objLookup_objectAssign, objLookup_objectAssign, objLookup_pickObjectKeys, if_pos hk]

/-- The fixed audit column list declared at the top of src/index.ts. -/
def auditColumnNames : List String :=
  ["creation_date", "created_by", "last_update_date", "last_updated_by"]

/-- Opaque handle for the external database connection; the service only
stores and forwards it. -/
structure Query where
  id : Nat
deriving DecidableEq, Repr

/-- Failure conditions signalled by the database collaborators:
NotFoundError from findByPrimaryKey, DuplicateKeyError from
checkPrimaryKey (spec section 7). -/
inductive DbError where
  | notFound
  | duplicateKey
deriving DecidableEq, Repr

/-- The ten overridable lifecycle extension points of the service. -/
inductive Hook where
  | preCreate
  | postCreate
  | preFind
  | postFind
  | preFindOne
  | postFindOne
  | preUpdate
  | postUpdate
  | preDelete
  | postDelete
deriving DecidableEq, Repr

/-- One observable step of a service operation: an invocation of a
database collaborator (with the arguments the service passes it) or of a
lifecycle hook. -/
inductive Event where
  | checkPrimaryKeyCall : Obj → Event
  | findByPrimaryKeyCall : Obj → Option (List String) → Bool → Event
  | createRowCall : Obj → Event
  | updateRowCall : Obj → Obj → Event
  | deleteRowCall : Obj → Event
  | hookCall : Hook → Event
deriving DecidableEq, Repr

/-- The instance fields of a BaseService object: the readonly
constructor configuration, the columnNames list derived in the
constructor, and the mutable per-call working fields. -/
structure ServiceState where
  debugSource : String
  tableName : String
  primaryKeyColumnNames : List String
  dataColumnNames : List String
  isAuditable : Bool
  systemColumnNames : List String
  columnNames : List String
  query : Query
  primaryKey : Obj
  createData : Obj
  updateData : Obj
  row : Obj
  system : Obj
  createdRow : Obj
  updatedRow : Obj
deriving DecidableEq, Repr

/-- The BaseService constructor: stores the configuration and derives
columnNames as primary key columns, then data columns, then the audit
columns when isAuditable, then system columns. -/
def mkService (debugSource tableName : String)
    (primaryKeyColumnNames dataColumnNames : List String)
    (isAuditable : Bool) (systemColumnNames : List String) : ServiceState :=
  { debugSource := debugSource
    tableName := tableName
    primaryKeyColumnNames := primaryKeyColumnNames
    dataColumnNames := dataColumnNames
    isAuditable := isAuditable
    systemColumnNames := systemColumnNames
    columnNames := primaryKeyColumnNames ++ dataColumnNames ++
      (if isAuditable then auditColumnNames else []) ++ systemColumnNames
    query := { id := 0 }
    primaryKey := []
    createData := []
    updateData := []
    row := []
    system := []
    createdRow := []
    updatedRow := [] }

/-- The configuration portion of a service instance: the readonly
constructor fields together with the derived columnNames list. -/
def configOf (st : ServiceState) :
    String × String × List String × List String × Bool × List String × List String :=
  (st.debugSource, st.tableName, st.primaryKeyColumnNames, st.dataColumnNames,
    st.isAuditable, st.systemColumnNames, st.columnNames)

/-- The audit object built by create: when the table is auditable and a
user UUID was supplied, created_by and last_updated_by are both set to
it (the chained assignment inserts last_updated_by first); otherwise the
audit object stays empty. -/
def createAudit (isAuditable : Bool) (userUUId : Option String) : Obj :=
  if isAuditable then
    match userUUId with
    | some u => [("last_updated_by", Value.str u), ("created_by", Value.str u)]
    | none => []
  else []

/-- The audit object built by update: when the table is auditable,
last_update_date is set to the current time, and last_updated_by to the
user UUID when one was supplied. -/
def updateAudit (isAuditable : Bool) (now : Nat) (userUUId : Option String) : Obj :=
  if isAuditable then
    ("last_update_date", Value.date now) ::
      (match userUUId with
        | some u => [("last_updated_by", Value.str u)]
        | none => [])
  else []

/-- The fields object create passes to createRow: the spread
expression over the copied create payload, the reset system object and
the audit object, in that precedence order. -/
def createFields (isAuditable : Bool) (userUUId : Option String)
    (createData : Obj) : Obj :=
  objectAssign (objectAssign (objectAssign [] createData) [])
    (createAudit isAuditable userUUId)

/-- The fields object update passes to updateRow: the spread expression
over the data-column restriction of the update payload (copied into
this.updateData), the reset system object and the audit object, in that
precedence order. -/
def updateFields (dataColumnNames : List String) (isAuditable : Bool)
    (now : Nat) (userUUId : Option String) (updateData : Obj) : Obj :=
  objectAssign (objectAssign (objectAssign [] (pickObjectKeys updateData dataColumnNames)) [])
    (updateAudit isAuditable now userUUId)

/-- BaseService.create.  Extracts the primary key subset of the payload;
when that subset is nonempty, invokes checkPrimaryKey (whose outcome is
the checkResult parameter) and aborts on its failure; then copies the
payload, resets system, runs preCreate, stamps the audit fields and
invokes createRow (outcome createRowResult), storing the created row and
running postCreate on success. -/
def create (st : ServiceState) (q : Query) (createData : Obj)
    (userUUId : Option String) (checkResult : Except DbError Unit)
    (createRowResult : Except DbError Obj) :
    ServiceState × Except DbError Obj × List Event :=
  if (objKeys (pickObjectKeys createData st.primaryKeyColumnNames)).length ≠ 0 then
    match checkResult with
    | Except.error e =>
        ({ st with
            query := q
            primaryKey := pickObjectKeys createData st.primaryKeyColumnNames },
          Except.error e,
          [Event.checkPrimaryKeyCall (pickObjectKeys createData st.primaryKeyColumnNames)])
    | Except.ok _ =>
        match createRowResult with
        | Except.error e =>
            ({ st with
                query := q
                primaryKey := pickObjectKeys createData st.primaryKeyColumnNames
                createData := objectAssign [] createData, system := [] },
              Except.error e,
              [Event.checkPrimaryKeyCall (pickObjectKeys createData st.primaryKeyColumnNames),
                Event.hookCall Hook.preCreate,
                Event.createRowCall (createFields st.isAuditable userUUId createData)])
        | Except.ok r =>
            ({ st with
                query := q
                primaryKey := pickObjectKeys createData st.primaryKeyColumnNames
                createData := objectAssign [] createData, system := []
                createdRow := r },
              Except.ok r,
              [Event.checkPrimaryKeyCall (pickObjectKeys createData st.primaryKeyColumnNames),
                Event.hookCall Hook.preCreate,
                Event.createRowCall (createFields st.isAuditable userUUId createData),
                Event.hookCall Hook.postCreate])
  else
    match createRowResult with
    | Except.error e =>
        ({ st with
            query := q
            primaryKey := pickObjectKeys createData st.primaryKeyColumnNames
            createData := objectAssign [] createData, system := [] },
          Except.error e,
          [Event.hookCall Hook.preCreate,
            Event.createRowCall (createFields st.isAuditable userUUId createData)])
    | Except.ok r =>
        ({ st with
            query := q
            primaryKey := pickObjectKeys createData st.primaryKeyColumnNames
            createData := objectAssign [] createData, system := []
            createdRow := r },
          Except.ok r,
          [Event.hookCall Hook.preCreate,
            Event.createRowCall (createFields st.isAuditable userUUId createData),
            Event.hookCall Hook.postCreate])

/-- BaseService.find: stores the query and runs the preFind and postFind
hooks; the base method performs no database call itself. -/
def find (st : ServiceState) (q : Query) : ServiceState × List Event :=
  ({ st with
      query := q },
    [Event.hookCall Hook.preFind, Event.hookCall Hook.postFind])

/-- BaseService.findOne: copies the primary key, runs preFindOne,
invokes findByPrimaryKey restricted to columnNames (outcome findResult),
and on success stores the row and runs postFindOne. -/
def findOne (st : ServiceState) (q : Query) (primaryKey : Obj)
    (findResult : Except DbError Obj) :
    ServiceState × Except DbError Obj × List Event :=
  match findResult with
  | Except.error e =>
      ({ st with
          query := q, primaryKey := objectAssign [] primaryKey },
        Except.error e,
        [Event.hookCall Hook.preFindOne,
          Event.findByPrimaryKeyCall (objectAssign [] primaryKey) (some st.columnNames) false])
  | Except.ok r =>
      ({ st with
          query := q, primaryKey := objectAssign [] primaryKey, row := r },
        Except.ok r,
        [Event.hookCall Hook.preFindOne,
          Event.findByPrimaryKeyCall (objectAssign [] primaryKey) (some st.columnNames) false,
          Event.hookCall Hook.postFindOne])

/-- BaseService.update.  Copies the primary key, looks the current row
up for update (outcome findResult), overlays the update payload on it
and compares the data-column projections; when they differ it restricts
the payload to the data columns, resets system, runs preUpdate, stamps
the audit fields and invokes updateRow with the original lookup key
(outcome updateRowResult), running postUpdate and returning the updated
row on success; when the projections are equal it returns the found row
with no further calls. -/
def update (st : ServiceState) (q : Query) (primaryKey updateData : Obj)
    (userUUId : Option String) (now : Nat)
    (findResult : Except DbError Obj) (updateRowResult : Except DbError Obj) :
    ServiceState × Except DbError Obj × List Event :=
  match findResult with
  | Except.error e =>
      ({ st with
          query := q, primaryKey := objectAssign [] primaryKey },
        Except.error e,
        [Event.findByPrimaryKeyCall (objectAssign [] primaryKey) (some st.columnNames) true])
  | Except.ok r =>
      if !areObjectsEqual
          (pickObjectKeys (objectAssign (objectAssign [] r) updateData) st.dataColumnNames)
          (pickObjectKeys r st.dataColumnNames) then
        match updateRowResult with
        | Except.error e =>
            ({ st with
                query := q, primaryKey := objectAssign [] primaryKey, row := r
                updateData := objectAssign [] (pickObjectKeys updateData st.dataColumnNames)
                system := [] },
              Except.error e,
              [Event.findByPrimaryKeyCall (objectAssign [] primaryKey) (some st.columnNames) true,
                Event.hookCall Hook.preUpdate,
                Event.updateRowCall (objectAssign [] primaryKey)
                  (updateFields st.dataColumnNames st.isAuditable now userUUId updateData)])
        | Except.ok ur =>
            ({ st with
                query := q, primaryKey := objectAssign [] primaryKey, row := r
                updateData := objectAssign [] (pickObjectKeys updateData st.dataColumnNames)
                system := [], updatedRow := ur },
              Except.ok ur,
              [Event.findByPrimaryKeyCall (objectAssign [] primaryKey) (some st.columnNames) true,
                Event.hookCall Hook.preUpdate,
                Event.updateRowCall (objectAssign [] primaryKey)
                  (updateFields st.dataColumnNames st.isAuditable now userUUId updateData),
                Event.hookCall Hook.postUpdate])
      else
        ({ st with
            query := q, primaryKey := objectAssign [] primaryKey, row := r },
          Except.ok r,
          [Event.findByPrimaryKeyCall (objectAssign [] primaryKey) (some st.columnNames) true])

/-- BaseService.delete: copies the primary key, looks the row up for
update with no column restriction (outcome findResult), then runs
preDelete, invokes deleteRow with the lookup key (outcome deleteResult)
and runs postDelete. -/
def delete (st : ServiceState) (q : Query) (primaryKey : Obj)
    (findResult : Except DbError Obj) (deleteResult : Except DbError Unit) :
    ServiceState × Except DbError Unit × List Event :=
  match findResult with
  | Except.error e =>
      ({ st with
          query := q, primaryKey := objectAssign [] primaryKey },
        Except.error e,
        [Event.findByPrimaryKeyCall (objectAssign [] primaryKey) none true])
  | Except.ok r =>
      match deleteResult with
      | Except.error e =>
          ({ st with
              query := q, primaryKey := objectAssign [] primaryKey, row := r },
            Except.error e,
            [Event.findByPrimaryKeyCall (objectAssign [] primaryKey) none true,
              Event.hookCall Hook.preDelete,
              Event.deleteRowCall (objectAssign [] primaryKey)])
      | Except.ok _ =>
          ({ st with
              query := q, primaryKey := objectAssign [] primaryKey, row := r },
            Except.ok (),
            [Event.findByPrimaryKeyCall (objectAssign [] primaryKey) none true,
              Event.hookCall Hook.preDelete,
              Event.deleteRowCall (objectAssign [] primaryKey),
              Event.hookCall Hook.postDelete])

theorem orO_none_right (a : Option Value) : orO a none = a := by
  cases a <;> rfl

theorem updateFields_pick (d : List String) (a : Bool) (n : Nat)
    (uu : Option String) (u : Obj) :
    updateFields d a n uu (pickObjectKeys u d) = updateFields d a n uu u := by
  unfold updateFields
  rw [pickObjectKeys_pickObjectKeys]

theorem objLookup_updateFields (d : List String) (a : Bool) (n : Nat)
    (uu : Option String) (u : Obj) (k : String) :
    objLookup (updateFields d a n uu u) k =
      orO (objLookup (updateAudit a n uu) k) (objLookup (pickObjectKeys u d) k) := by
  unfold updateFields
  rw [objLookup_objectAssign, objLookup_objectAssign, objLookup_objectAssign]
  cases objLookup (updateAudit a n uu) k <;>
    cases objLookup (pickObjectKeys u d) k <;> simp [orO, objLookup]

theorem objLookup_createFields (a : Bool) (uu : Option String) (cd : Obj) (k : String) :
    objLookup (createFields a uu cd) k =
      orO (objLookup (createAudit a uu) k) (objLookup cd k) := by
  unfold createFields
  rw [objLookup_objectAssign, objLookup_objectAssign, objLookup_objectAssign]
  cases objLookup (createAudit a uu) k <;>
    cases objLookup cd k <;> simp [orO, objLookup]

theorem objLookup_updateAudit_lud (n : Nat) (uu : Option String) :
    objLookup (updateAudit true n uu) "last_update_date" = some (Value.date n) := by
  cases uu <;> simp [updateAudit, objLookup]

theorem objLookup_updateAudit_luby (n : Nat) (uu : Option String) :
    objLookup (updateAudit true n uu) "last_updated_by" = Option.map Value.str uu := by
  cases uu <;> simp [updateAudit, objLookup]

theorem objLookup_updateAudit_createdBy (a : Bool) (n : Nat) (uu : Option String) :
    objLookup (updateAudit a n uu) "created_by" = none := by
  cases a <;> cases uu <;> simp [updateAudit, objLookup]

theorem objLookup_updateAudit_creationDate (a : Bool) (n : Nat) (uu : Option String) :
    objLookup (updateAudit a n uu) "creation_date" = none := by
  cases a <;> cases uu <;> simp [updateAudit, objLookup]

theorem objLookup_updateAudit_notAudit (a : Bool) (n : Nat) (uu : Option String)
    (k : String) (hk : k ∉ auditColumnNames) :
    objLookup (updateAudit a n uu) k = none := by
  simp [auditColumnNames, List.mem_cons, not_or] at hk
  obtain ⟨h1, h2, h3, h4⟩ := hk
  cases a <;> cases uu <;> simp [updateAudit, objLookup, Ne.symm h3, Ne.symm h4]

theorem updateRowCall_args (st : ServiceState) (q : Query) (pk u : Obj)
    (uuid : Option String) (now : Nat) (fr ur : Except DbError Obj) (key fields : Obj)
    (hmem : Event.updateRowCall key fields ∈ (update st q pk u uuid now fr ur).2.2) :
    key = objectAssign [] pk ∧
      fields = updateFields st.dataColumnNames st.isAuditable now uuid u := by
  cases fr with
  | error e => simp [update] at hmem
  | ok r =>
    cases ur with
    | error e =>
      simp only [update] at hmem
      split at hmem
      · simp at hmem
        exact hmem
      · simp at hmem
    | ok w =>
      simp only [update] at hmem
      split at hmem
      · simp at hmem
        exact hmem
      · simp at hmem

theorem createRowCall_args (st : ServiceState) (q : Query) (cd : Obj)
    (uuid : Option String) (chk : Except DbError Unit) (cr : Except DbError Obj)
    (fields : Obj)
    (hmem : Event.createRowCall fields ∈ (create st q cd uuid chk cr).2.2) :
    fields = createFields st.isAuditable uuid cd := by
  unfold create at hmem
  split at hmem
  · cases chk with
    | error e => simp at hmem
    | ok _ =>
      cases cr with
      | error e =>
        simp at hmem
        exact hmem
      | ok r =>
        simp at hmem
        exact hmem
  · cases cr with
    | error e =>
      simp at hmem
      exact hmem
    | ok r =>
      simp at hmem
      exact hmem

/-- Sample configuration used by witnesses: single-column primary key id,
data columns name and price, auditing enabled (the scenario of spec
section 8). -/
def sampService : ServiceState :=
  mkService "service" "widgets" ["id"] ["name", "price"] true []

/-- Sample configuration with a composite primary key. -/
def sampService2 : ServiceState :=
  mkService "service" "parts" ["a", "b"] ["x"] true []

/-- Sample connection handle. -/
def sampQuery : Query := { id := 1 }

/-- Sample persisted row. -/
def sampRow : Obj :=
  [("id", Value.num 1), ("name", Value.str "widget"), ("price", Value.num 10)]

/-- Sample create payload with a fully populated primary key. -/
def sampCreateData : Obj :=
  [("id", Value.num 1), ("name", Value.str "widget"), ("price", Value.num 10)]

/-- Sample create payload for the composite-key configuration in which
the primary key column b is absent. -/
def sampCreateData2 : Obj :=
  [("a", Value.num 1), ("x", Value.num 2)]

/-- Sample update payload containing a data-column change and a field
outside the configured data columns. -/
def sampUpdateData : Obj :=
  [("price", Value.num 12), ("junk", Value.str "x")]

/-- C1: for every update call whose payload, overlaid on the current row
and projected to the configured data columns, equals the current row
projected to the same data columns, update performs no write (updateRow
is never invoked), invokes neither preUpdate nor postUpdate, and returns
the row obtained from the initial lookup unchanged: the whole outcome is
the found row plus the single lookup event. -/
theorem update_noop_suppression (st : ServiceState) (q : Query) (pk u r : Obj)
    (uuid : Option String) (now : Nat) (ur : Except DbError Obj)
    (h : areObjectsEqual
        (pickObjectKeys (objectAssign (objectAssign [] r) u) st.dataColumnNames)
        (pickObjectKeys r st.dataColumnNames) = true) :
    update st q pk u uuid now (Except.ok r) ur =
      ({ st with query := q, primaryKey := objectAssign [] pk, row := r },
        Except.ok r,
        [Event.findByPrimaryKeyCall (objectAssign [] pk) (some st.columnNames) true]) := by
  simp [update, h]

/-- Witness for C1 at the spec section 8 scenario: updating price 10 to
price 10 has equal data projections, and update returns the found row
with only the lookup event. -/
theorem update_noop_suppression_witness :
    areObjectsEqual
        (pickObjectKeys (objectAssign (objectAssign [] sampRow) [("price", Value.num 10)])
          sampService.dataColumnNames)
        (pickObjectKeys sampRow sampService.dataColumnNames) = true
      ∧ update sampService sampQuery [("id", Value.num 1)] [("price", Value.num 10)]
          (some "u2") 5 (Except.ok sampRow) (Except.ok sampRow) =
        ({ sampService with query := sampQuery, primaryKey := objectAssign [] [("id", Value.num 1)], row := sampRow },
          Except.ok sampRow,
          [Event.findByPrimaryKeyCall (objectAssign [] [("id", Value.num 1)])
            (some sampService.columnNames) true]) :=
  ⟨by decide,
    update_noop_suppression sampService sampQuery [("id", Value.num 1)]
      [("price", Value.num 10)] sampRow (some "u2") 5 (Except.ok sampRow) (by decide)⟩

/-- C4: findOne, update and delete on a primary key that matches no row
fail with the NotFoundError raised by the lookup collaborator and
perform nothing beyond the initial lookup: the event trace holds no
insert, update or delete collaborator call and none of the hooks that
follow the lookup (findOne runs its preFindOne hook before the lookup). -/
theorem notFound_aborts_after_lookup (st : ServiceState) (q : Query) (pk u : Obj)
    (uuid : Option String) (now : Nat) (ur : Except DbError Obj)
    (dr : Except DbError Unit) :
    findOne st q pk (Except.error DbError.notFound) =
        ({ st with query := q, primaryKey := objectAssign [] pk },
          Except.error DbError.notFound,
          [Event.hookCall Hook.preFindOne,
            Event.findByPrimaryKeyCall (objectAssign [] pk) (some st.columnNames) false])
      ∧ update st q pk u uuid now (Except.error DbError.notFound) ur =
        ({ st with query := q, primaryKey := objectAssign [] pk },
          Except.error DbError.notFound,
          [Event.findByPrimaryKeyCall (objectAssign [] pk) (some st.columnNames) true])
      ∧ delete st q pk (Except.error DbError.notFound) dr =
        ({ st with query := q, primaryKey := objectAssign [] pk },
          Except.error DbError.notFound,
          [Event.findByPrimaryKeyCall (objectAssign [] pk) none true]) :=
  ⟨rfl, rfl, rfl⟩

/-- C9: the constructor derives the full column list as the
concatenation of primary key, data, audit (when auditable) and system
columns in that fixed order, and none of the five public operations
changes any configuration field or the derived column list, whatever the
collaborator outcomes. -/
theorem config_immutable (ds tn : String) (pkc dc sysc : List String) (aud : Bool)
    (st : ServiceState) (q : Query) (cd pk u : Obj) (uuid : Option String)
    (now : Nat) (chk : Except DbError Unit) (fr ur cr : Except DbError Obj)
    (dr : Except DbError Unit) :
    (mkService ds tn pkc dc aud sysc).columnNames =
        pkc ++ dc ++ (if aud then auditColumnNames else []) ++ sysc
      ∧ configOf (create st q cd uuid chk cr).1 = configOf st
      ∧ configOf (find st q).1 = configOf st
      ∧ configOf (findOne st q pk fr).1 = configOf st
      ∧ configOf (update st q pk u uuid now fr ur).1 = configOf st
      ∧ configOf (delete st q pk fr dr).1 = configOf st := by
  refine ⟨rfl, ?_, rfl, ?_, ?_, ?_⟩
  · unfold create
    split
    · cases chk with
      | error e => rfl
      | ok _ => cases cr <;> rfl
    · cases cr <;> rfl
  · cases fr <;> rfl
  · cases fr with
    | error e => rfl
    | ok r =>
      simp only [update]
      split
      · cases ur <;> rfl
      · rfl
  · cases fr with
    | error e => rfl
    | ok r => cases dr <;> rfl

/-- C2 counterexample: with composite primary key columns a and b and a
create payload supplying only a, the extracted key subset is missing the
configured column b, yet create still invokes checkPrimaryKey: the
source guards the check with a nonemptiness test on the extracted key,
not a full-population test. -/
theorem create_partial_key_still_checked :
    "b" ∈ sampService2.primaryKeyColumnNames
      ∧ "b" ∉ objKeys (pickObjectKeys sampCreateData2 sampService2.primaryKeyColumnNames)
      ∧ Event.checkPrimaryKeyCall (pickObjectKeys sampCreateData2 sampService2.primaryKeyColumnNames)
          ∈ (create sampService2 sampQuery sampCreateData2 none (Except.ok ()) (Except.ok [])).2.2 := by
  decide

/-- C2 (amended): create invokes checkPrimaryKey exactly when the
primary-key subset extracted from the create payload is nonempty, that
is, when at least one configured primary-key column is present in the
payload; only a payload containing no primary-key column skips the
check. -/
theorem create_check_iff_key_nonempty (st : ServiceState) (q : Query) (cd : Obj)
    (uuid : Option String) (chk : Except DbError Unit) (cr : Except DbError Obj) :
    Event.checkPrimaryKeyCall (pickObjectKeys cd st.primaryKeyColumnNames)
        ∈ (create st q cd uuid chk cr).2.2
      ↔ pickObjectKeys cd st.primaryKeyColumnNames ≠ [] := by
  unfold create
  split
  · rename_i h
    have hne : pickObjectKeys cd st.primaryKeyColumnNames ≠ [] := by
      intro h0
      apply h
      rw [h0]
      rfl
    cases chk with
    | error e => simp [hne]
    | ok _ =>
      cases cr with
      | error e => simp [hne]
      | ok r => simp [hne]
  · rename_i h
    have heq : pickObjectKeys cd st.primaryKeyColumnNames = [] := by
      by_contra hc
      apply h
      cases hl : pickObjectKeys cd st.primaryKeyColumnNames with
      | nil => exact absurd hl hc
      | cons a tl => simp [objKeys, hl]
    cases cr with
    | error e => simp [heq]
    | ok r => simp [heq]

/-- Witness for the amended C2: on the sample payload whose primary key
column id is present, the checkPrimaryKey event occurs in the trace of
create. -/
theorem create_check_iff_key_nonempty_witness :
    Event.checkPrimaryKeyCall (pickObjectKeys sampCreateData sampService.primaryKeyColumnNames)
      ∈ (create sampService sampQuery sampCreateData none (Except.ok ()) (Except.ok [])).2.2 :=
  (create_check_iff_key_nonempty sampService sampQuery sampCreateData none
    (Except.ok ()) (Except.ok [])).mpr (by decide)

/-- C6: when the extracted primary key carries every configured
primary-key column and checkPrimaryKey reports a duplicate, create
propagates the DuplicateKeyError and stops: the trace holds only the
checkPrimaryKey event, so createRow and the create hooks never run. -/
theorem create_duplicate_key_aborts (st : ServiceState) (q : Query) (cd : Obj)
    (uuid : Option String) (cr : Except DbError Obj)
    (hfull : objKeys (pickObjectKeys cd st.primaryKeyColumnNames) = st.primaryKeyColumnNames)
    (hne : st.primaryKeyColumnNames ≠ []) :
    create st q cd uuid (Except.error DbError.duplicateKey) cr =
      ({ st with query := q, primaryKey := pickObjectKeys cd st.primaryKeyColumnNames },
        Except.error DbError.duplicateKey,
        [Event.checkPrimaryKeyCall (pickObjectKeys cd st.primaryKeyColumnNames)]) := by
  have hlen : (objKeys (pickObjectKeys cd st.primaryKeyColumnNames)).length ≠ 0 := by
    rw [hfull]
    intro h0
    exact hne (List.length_eq_zero.mp h0)
  unfold create
  rw [if_pos hlen]

/-- Witness for C6: the sample payload fully populates the primary key,
and create with a duplicate-key outcome aborts with only the check
event. -/
theorem create_duplicate_key_aborts_witness :
    objKeys (pickObjectKeys sampCreateData sampService.primaryKeyColumnNames) =
        sampService.primaryKeyColumnNames
      ∧ sampService.primaryKeyColumnNames ≠ []
      ∧ create sampService sampQuery sampCreateData none
          (Except.error DbError.duplicateKey) (Except.ok []) =
        ({ sampService with query := sampQuery, primaryKey := pickObjectKeys sampCreateData sampService.primaryKeyColumnNames },
          Except.error DbError.duplicateKey,
          [Event.checkPrimaryKeyCall (pickObjectKeys sampCreateData sampService.primaryKeyColumnNames)]) :=
  ⟨by decide, by decide,
    create_duplicate_key_aborts sampService sampQuery sampCreateData none
      (Except.ok []) (by decide) (by decide)⟩

/-- C3: fields of the update payload outside the configured data
columns are dropped before the write: in any updateRow invocation the
fields object agrees at every non-data key with the audit object the
service computed itself (so no payload value reaches it there), and
replacing the payload by its data-column restriction leaves the whole
outcome of update, including the projected-equality comparison, exactly
the same. -/
theorem update_drops_extraneous_fields (st : ServiceState) (q : Query) (pk u : Obj)
    (uuid : Option String) (now : Nat) (fr ur : Except DbError Obj) :
    (∀ key fields, Event.updateRowCall key fields ∈ (update st q pk u uuid now fr ur).2.2 →
        ∀ k, k ∉ st.dataColumnNames →
          objLookup fields k = objLookup (updateAudit st.isAuditable now uuid) k)
      ∧ update st q pk u uuid now fr ur =
          update st q pk (pickObjectKeys u st.dataColumnNames) uuid now fr ur := by
  constructor
  · intro key fields hmem k hk
    obtain ⟨hkey, hfields⟩ := updateRowCall_args st q pk u uuid now fr ur key fields hmem
    subst hfields
    rw [objLookup_updateFields, objLookup_pickObjectKeys, if_neg hk, orO_none_right]
  · cases fr with
    | error e => rfl
    | ok r =>
      simp only [update]
      simp only [pickObjectKeys_objectAssign_restrict, pickObjectKeys_pickObjectKeys,
        updateFields_pick]

/-- Witness for C3: at the sample update payload carrying the
extraneous key junk, the write fields hold nothing at junk beyond the
audit object, and update gives the same outcome on the restricted
payload. -/
theorem update_drops_extraneous_fields_witness :
    objLookup (updateFields sampService.dataColumnNames sampService.isAuditable 5
          (some "u2") sampUpdateData) "junk"
        = objLookup (updateAudit sampService.isAuditable 5 (some "u2")) "junk"
      ∧ update sampService sampQuery [("id", Value.num 1)] sampUpdateData (some "u2") 5
          (Except.ok sampRow) (Except.ok sampRow)
        = update sampService sampQuery [("id", Value.num 1)]
            (pickObjectKeys sampUpdateData sampService.dataColumnNames) (some "u2") 5
            (Except.ok sampRow) (Except.ok sampRow) :=
  ⟨(update_drops_extraneous_fields sampService sampQuery [("id", Value.num 1)]
        sampUpdateData (some "u2") 5 (Except.ok sampRow) (Except.ok sampRow)).1
      (objectAssign [] [("id", Value.num 1)])
      (updateFields sampService.dataColumnNames sampService.isAuditable 5
        (some "u2") sampUpdateData)
      (by decide) "junk" (by decide),
    (update_drops_extraneous_fields sampService sampQuery [("id", Value.num 1)]
        sampUpdateData (some "u2") 5 (Except.ok sampRow) (Except.ok sampRow)).2⟩

/-- C5: in every update write with auditing enabled, the fields passed
to updateRow carry last_update_date set to the current time and
last_updated_by set to the supplied actor id exactly when one is
supplied, while created_by and creation_date are never part of the write
payload (under the configured disjointness of data and audit columns). -/
theorem update_audit_stamping (st : ServiceState) (q : Query) (pk u : Obj)
    (uuid : Option String) (now : Nat) (fr ur : Except DbError Obj) (key fields : Obj)
    (haud : st.isAuditable = true)
    (h1 : "created_by" ∉ st.dataColumnNames)
    (h2 : "creation_date" ∉ st.dataColumnNames)
    (h3 : "last_updated_by" ∉ st.dataColumnNames)
    (hmem : Event.updateRowCall key fields ∈ (update st q pk u uuid now fr ur).2.2) :
    objLookup fields "last_update_date" = some (Value.date now)
      ∧ objLookup fields "last_updated_by" = Option.map Value.str uuid
      ∧ objLookup fields "created_by" = none
      ∧ objLookup fields "creation_date" = none := by
  obtain ⟨hkey, hfields⟩ := updateRowCall_args st q pk u uuid now fr ur key fields hmem
  subst hfields
  refine ⟨?_, ?_, ?_, ?_⟩
  · rw [objLookup_updateFields, haud, objLookup_updateAudit_lud]
    rfl
  · rw [objLookup_updateFields, haud, objLookup_updateAudit_luby,
      objLookup_pickObjectKeys, if_neg h3]
    cases uuid <;> rfl
  · rw [objLookup_updateFields, objLookup_updateAudit_createdBy,
      objLookup_pickObjectKeys, if_neg h1]
    rfl
  · rw [objLookup_updateFields, objLookup_updateAudit_creationDate,
      objLookup_pickObjectKeys, if_neg h2]
    rfl

/-- Witness for C5 at the sample write changing price with actor u2:
the write fields stamp last_update_date and last_updated_by and carry no
creator fields. -/
theorem update_audit_stamping_witness :
    objLookup (updateFields sampService.dataColumnNames sampService.isAuditable 5
          (some "u2") sampUpdateData) "last_update_date" = some (Value.date 5)
      ∧ objLookup (updateFields sampService.dataColumnNames sampService.isAuditable 5
          (some "u2") sampUpdateData) "last_updated_by" = Option.map Value.str (some "u2")
      ∧ objLookup (updateFields sampService.dataColumnNames sampService.isAuditable 5
          (some "u2") sampUpdateData) "created_by" = none
      ∧ objLookup (updateFields sampService.dataColumnNames sampService.isAuditable 5
          (some "u2") sampUpdateData) "creation_date" = none :=
  update_audit_stamping sampService sampQuery [("id", Value.num 1)] sampUpdateData
    (some "u2") 5 (Except.ok sampRow) (Except.ok sampRow)
    (objectAssign [] [("id", Value.num 1)])
    (updateFields sampService.dataColumnNames sampService.isAuditable 5
      (some "u2") sampUpdateData)
    (by decide) (by decide) (by decide) (by decide) (by decide)

/-- C7: in every create insert with auditing enabled and an actor id
supplied, the fields passed to createRow carry created_by and
last_updated_by both equal to that actor id, while creation_date and
last_update_date are whatever the payload held (the service itself never
stamps them; timestamps are left to the data layer). -/
theorem create_audit_actor (st : ServiceState) (q : Query) (cd : Obj) (a : String)
    (chk : Except DbError Unit) (cr : Except DbError Obj) (fields : Obj)
    (haud : st.isAuditable = true)
    (hmem : Event.createRowCall fields ∈ (create st q cd (some a) chk cr).2.2) :
    objLookup fields "created_by" = some (Value.str a)
      ∧ objLookup fields "last_updated_by" = some (Value.str a)
      ∧ objLookup fields "creation_date" = objLookup cd "creation_date"
      ∧ objLookup fields "last_update_date" = objLookup cd "last_update_date" := by
  have hfields := createRowCall_args st q cd (some a) chk cr fields hmem
  subst hfields
  refine ⟨?_, ?_, ?_, ?_⟩ <;>
    rw [objLookup_createFields, haud] <;> simp [createAudit, objLookup, orO]

/-- Witness for C7 at the sample create payload with actor u1. -/
theorem create_audit_actor_witness :
    objLookup (createFields sampService.isAuditable (some "u1") sampCreateData)
        "created_by" = some (Value.str "u1")
      ∧ objLookup (createFields sampService.isAuditable (some "u1") sampCreateData)
        "last_updated_by" = some (Value.str "u1")
      ∧ objLookup (createFields sampService.isAuditable (some "u1") sampCreateData)
        "creation_date" = objLookup sampCreateData "creation_date"
      ∧ objLookup (createFields sampService.isAuditable (some "u1") sampCreateData)
        "last_update_date" = objLookup sampCreateData "last_update_date" :=
  create_audit_actor sampService sampQuery sampCreateData "u1" (Except.ok ())
    (Except.ok []) (createFields sampService.isAuditable (some "u1") sampCreateData)
    (by decide) (by decide)

/-- C8: under the configured disjointness of the primary-key columns
from the data and audit columns, every updateRow invocation uses as key
exactly the primary-key argument captured at entry, and its write
payload holds no primary-key column. -/
theorem update_pk_never_written (st : ServiceState) (q : Query) (pk u : Obj)
    (uuid : Option String) (now : Nat) (fr ur : Except DbError Obj) (key fields : Obj)
    (hdisj : ∀ k ∈ st.primaryKeyColumnNames, k ∉ st.dataColumnNames ∧ k ∉ auditColumnNames)
    (hmem : Event.updateRowCall key fields ∈ (update st q pk u uuid now fr ur).2.2) :
    key = pk ∧ ∀ k ∈ st.primaryKeyColumnNames, objLookup fields k = none := by
  obtain ⟨hkey, hfields⟩ := updateRowCall_args st q pk u uuid now fr ur key fields hmem
  constructor
  · rw [hkey, objectAssign_nil]
  · intro k hk
    obtain ⟨hkd, hka⟩ := hdisj k hk
    subst hfields
    rw [objLookup_updateFields, objLookup_updateAudit_notAudit _ _ _ _ hka,
      objLookup_pickObjectKeys, if_neg hkd]
    rfl

/-- Witness for C8 at the sample write: the key is the entry argument
and the fields hold nothing at the primary-key column id. -/
theorem update_pk_never_written_witness :
    objectAssign [] [("id", Value.num 1)] = [("id", Value.num 1)]
      ∧ ∀ k ∈ sampService.primaryKeyColumnNames,
          objLookup (updateFields sampService.dataColumnNames sampService.isAuditable 5
            (some "u2") sampUpdateData) k = none :=
  update_pk_never_written sampService sampQuery [("id", Value.num 1)] sampUpdateData
    (some "u2") 5 (Except.ok sampRow) (Except.ok sampRow)
    (objectAssign [] [("id", Value.num 1)])
    (updateFields sampService.dataColumnNames sampService.isAuditable 5
      (some "u2") sampUpdateData)
    (by decide) (by decide)

/-- C10: create does not filter the payload to the configured data
columns: in every createRow invocation the fields object is, at every
key, the service audit object overlaid on the whole create payload (the
system object is empty in the base class), so a caller-supplied value
for any column, audit columns included, reaches the insert collaborator
unless the service overrode it, which happens only at created_by and
last_updated_by and only when auditing is enabled and an actor id is
supplied. -/
theorem create_payload_unfiltered (st : ServiceState) (q : Query) (cd : Obj)
    (uuid : Option String) (chk : Except DbError Unit) (cr : Except DbError Obj)
    (fields : Obj)
    (hmem : Event.createRowCall fields ∈ (create st q cd uuid chk cr).2.2) :
    (∀ k, objLookup fields k =
        orO (objLookup (createAudit st.isAuditable uuid) k) (objLookup cd k))
      ∧ (st.isAuditable = false ∨ uuid = none →
          ∀ k, objLookup fields k = objLookup cd k)
      ∧ (∀ a, uuid = some a → st.isAuditable = true →
          ∀ k, k ≠ "created_by" → k ≠ "last_updated_by" →
            objLookup fields k = objLookup cd k) := by
  have hfields := createRowCall_args st q cd uuid chk cr fields hmem
  subst hfields
  refine ⟨?_, ?_, ?_⟩
  · intro k
    exact objLookup_createFields st.isAuditable uuid cd k
  · intro hcase k
    rw [objLookup_createFields]
    rcases hcase with haud | hnone
    · rw [haud]
      rfl
    · subst hnone
      cases st.isAuditable <;> simp [createAudit, objLookup, orO]
  · intro a ha haud k hcb hluby
    subst ha
    rw [objLookup_createFields, haud]
    simp [createAudit, objLookup, orO, Ne.symm hcb, Ne.symm hluby]

/-- Witness for C10 at the sample payload with no actor id: every field
of the payload reaches the insert collaborator unchanged. -/
theorem create_payload_unfiltered_witness :
    (∀ k, objLookup (createFields sampService.isAuditable none sampCreateData) k =
        orO (objLookup (createAudit sampService.isAuditable none) k)
          (objLookup sampCreateData k))
      ∧ (sampService.isAuditable = false ∨ (none : Option String) = none →
          ∀ k, objLookup (createFields sampService.isAuditable none sampCreateData) k =
            objLookup sampCreateData k)
      ∧ (∀ a, (none : Option String) = some a → sampService.isAuditable = true →
          ∀ k, k ≠ "created_by" → k ≠ "last_updated_by" →
            objLookup (createFields sampService.isAuditable none sampCreateData) k =
              objLookup sampCreateData k) :=
  create_payload_unfiltered sampService sampQuery sampCreateData none (Except.ok ())
    (Except.ok []) (createFields sampService.isAuditable none sampCreateData)
    (by decide)

end BaseService
